import Mathlib

/-
Verification development for the NeuroSmriti behavioral / safety analysis
services. The definitions below are a shallow embedding of the Python code in

  src/backend/app/services/behavioral_analysis_service.py
  src/backend/app/services/safety_monitoring_service.py
  src/backend/app/services/speech_analysis_service.py

Modelling conventions:
  - Python floats are modelled as real numbers (exact arithmetic; rounding is
    not modelled).  Purely rational pipelines (sleep quality, speech scoring)
    are modelled over the rationals so they stay executable.
  - numpy operations on an empty array (np.mean, np.std) produce NaN without
    raising; where a NaN can actually reach an output we encode it with an
    Option (none = NaN) or with the dedicated PyVal.nan dictionary value.
  - A Python runtime exception (the one reachable one: an int/0.0 division
    in the gait cadence expression) is modelled as Option.none of the whole
    call.
  - Python dict results whose key set varies between branches are modelled as
    inductive outcome types; the gait analyzer, whose dict is always the same
    eight keys, is modelled as the literal key/value list so that claims about
    the presence and value of individual keys can be stated.
-/

namespace NeuroSmriti

/-- Mean of a list of reals, as np.mean: sum divided by length.  Callers in
the embedded code either guard against the empty list or (see the gait
analyzer) never observe the empty-list value because the consuming loop is
itself empty; Lean's division-by-zero convention gives 0 where numpy would
give NaN, and every place where that NaN is observable is modelled
explicitly with an Option. -/
noncomputable def listMean (l : List ℝ) : ℝ := l.sum / l.length

/-- Population standard deviation of a list of reals, as np.std:
sqrt of the mean squared deviation from the mean. -/
noncomputable def listStd (l : List ℝ) : ℝ :=
  Real.sqrt (listMean (l.map (fun x => (x - listMean l) ^ 2)))

/-- Maximum of a nonempty list of reals, as np.max (0 for the empty list,
which every caller guards against). -/
noncomputable def listMax : List ℝ → ℝ
  | [] => 0
  | [a] => a
  | a :: b :: rest => max a (listMax (b :: rest))

/-- Index of the first occurrence of the maximum, as np.argmax. -/
noncomputable def argmaxIdx : List ℝ → ℕ
  | [] => 0
  | [_] => 0
  | a :: b :: rest =>
    let j := argmaxIdx (b :: rest)
    if (b :: rest).getD j 0 > a then j + 1 else 0

/-- Mean of a list of rationals (np.mean over exact rational inputs). -/
def listMeanQ (l : List ℚ) : ℚ := l.sum / l.length

/-- A Python value as it appears in the result dict of the gait analyzer:
an int, a float, the float NaN, a string, or a list of strings. -/
inductive PyVal
  | int (n : ℤ)
  | real (x : ℝ)
  | nan
  | str (s : String)
  | strList (l : List String)

/-- A float that may be NaN (encoded none), rendered as a dict value. -/
def pyFloat : Option ℝ → PyVal
  | none => PyVal.nan
  | some x => PyVal.real x

/- ----------------------------------------------------------------------
GaitAnalyzer (behavioral_analysis_service.py)
---------------------------------------------------------------------- -/

/-- One accelerometer reading handed to GaitAnalyzer.analyze_gait_data:
a dict with keys timestamp, x, y, z. -/
structure GaitSample where
  timestamp : ℝ
  x : ℝ
  y : ℝ
  z : ℝ

/-- Acceleration magnitude sqrt(x^2 + y^2 + z^2) of one sample. -/
noncomputable def gaitMag (s : GaitSample) : ℝ :=
  Real.sqrt (s.x ^ 2 + s.y ^ 2 + s.z ^ 2)

/-- GaitAnalyzer._detect_steps: indices i in range(1, len-1) that are strict
interior local maxima of the magnitude series and exceed mean + std.  For the
empty series the numpy threshold is NaN, but the scanned index range is empty,
so the result is [] either way; the Lean threshold value is never compared
in that case. -/
noncomputable def detect_steps (magnitude : List ℝ) : List ℕ :=
  let threshold := listMean magnitude + listStd magnitude
  (List.range' 1 (magnitude.length - 2)).filter fun i =>
    magnitude.getD i 0 > threshold ∧
    magnitude.getD i 0 > magnitude.getD (i - 1) 0 ∧
    magnitude.getD i 0 > magnitude.getD (i + 1) 0

/-- GaitAnalyzer._calculate_gait_speed: 0 if fewer than 2 steps or zero
timestamp span, else steps * 0.7 / duration. -/
noncomputable def calculate_gait_speed (steps : List ℕ) (timestamps : List ℝ) : ℝ :=
  if steps.length < 2 then 0
  else
    let duration := timestamps.getLastD 0 - timestamps.headD 0
    if duration = 0 then 0
    else (steps.length : ℝ) * 0.7 / duration

/-- np.diff of a list of step indices, as reals. -/
def npDiff (l : List ℕ) : List ℝ :=
  List.zipWith (fun a b => (b : ℝ) - (a : ℝ)) l l.tail

/-- GaitAnalyzer._calculate_stride_variability: 0 if fewer than 3 steps,
else std of the step index gaps over their mean (0 if that mean is not
positive). -/
noncomputable def calculate_stride_variability (steps : List ℕ) : ℝ :=
  if steps.length < 3 then 0
  else
    let stride_intervals := npDiff steps
    if listMean stride_intervals > 0 then
      listStd stride_intervals / listMean stride_intervals
    else 0

/-- GaitAnalyzer._assess_balance: 1 - min((std x + std z) / 8, 1).  On the
empty batch np.std is NaN and the whole expression is NaN, encoded none. -/
noncomputable def assess_balance (acc_x acc_z : List ℝ) : Option ℝ :=
  if acc_x.length = 0 then none
  else some (1 - min ((listStd acc_x + listStd acc_z) / 8) 1)

/-- GaitAnalyzer._calculate_fall_risk:
0.4 * speed risk + 0.3 * variability risk + 0.3 * balance risk. -/
noncomputable def calculate_fall_risk (gait_speed stride_variability balance : ℝ) : ℝ :=
  let speed_risk := 1 - min (gait_speed / 1.2) 1
  let variability_risk := min (stride_variability * 10) 1
  let balance_risk := 1 - balance
  speed_risk * 0.4 + variability_risk * 0.3 + balance_risk * 0.3

/-- Risk level string of analyze_gait_data.  A NaN fall risk (none) compares
false against both thresholds in Python, hence the level is "low". -/
noncomputable def gait_risk_level : Option ℝ → String
  | none => "low"
  | some r => if r > 0.7 then "high" else if r > 0.4 then "moderate" else "low"

/-- GaitAnalyzer._generate_gait_recommendations.  A NaN risk (none) fails the
risk > 0.6 comparison in Python, so the fall prevention entries are skipped. -/
noncomputable def generate_gait_recommendations (speed variability : ℝ) (risk : Option ℝ) :
    List String :=
  let recs :=
    (if speed < 0.8 then ["Practice walking exercises to improve gait speed"] else []) ++
    (if variability > 0.15 then ["Work on stride consistency with a physical therapist"] else []) ++
    (match risk with
     | some r =>
       if r > 0.6 then
         ["Consider fall prevention strategies and home safety assessment",
          "Use assistive devices if needed"]
       else []
     | none => [])
  if recs = [] then ["Continue regular walking and exercise"] else recs

/-- The cadence entry of analyze_gait_data:
len(steps) / ((timestamps[-1] - timestamps[0]) / 60) if len(timestamps) > 1
else 0.  When more than one timestamp is present but the span is zero the
Python division raises ZeroDivisionError (none). -/
noncomputable def gait_cadence (steps : List ℕ) (timestamps : List ℝ) : Option ℝ :=
  if 1 < timestamps.length then
    let d := (timestamps.getLastD 0 - timestamps.headD 0) / 60
    if d = 0 then none else some ((steps.length : ℝ) / d)
  else some 0

/-- The result dict of GaitAnalyzer.analyze_gait_data, in source key order,
given the already-computed cadence value. -/
noncomputable def gaitDict (data : List GaitSample) (cadence : ℝ) : List (String × PyVal) :=
  let timestamps := data.map GaitSample.timestamp
  let magnitude := data.map gaitMag
  let steps := detect_steps magnitude
  let gait_speed := calculate_gait_speed steps timestamps
  let stride_variability := calculate_stride_variability steps
  let balance_score := assess_balance (data.map GaitSample.x) (data.map GaitSample.z)
  let fall_risk := balance_score.map (calculate_fall_risk gait_speed stride_variability)
  [("step_count", PyVal.int steps.length),
   ("gait_speed_m_per_s", PyVal.real gait_speed),
   ("stride_variability", PyVal.real stride_variability),
   ("balance_score", pyFloat balance_score),
   ("cadence_steps_per_min", PyVal.real cadence),
   ("fall_risk_score", pyFloat fall_risk),
   ("risk_level", PyVal.str (gait_risk_level fall_risk)),
   ("recommendations",
    PyVal.strList (generate_gait_recommendations gait_speed stride_variability fall_risk))]

/-- GaitAnalyzer.analyze_gait_data.  Returns none exactly when the call
raises (the cadence division by a zero float span); otherwise the result
dict.  An empty batch does not raise: the numpy means/stds are NaN with a
warning only, and the cadence guard len(timestamps) > 1 is false. -/
noncomputable def analyze_gait_data (data : List GaitSample) : Option (List (String × PyVal)) :=
  (gait_cadence (detect_steps (data.map gaitMag)) (data.map GaitSample.timestamp)).map
    (gaitDict data)

/- ----------------------------------------------------------------------
FallDetectionService (safety_monitoring_service.py)
---------------------------------------------------------------------- -/

/-- One accelerometer reading handed to
FallDetectionService.analyze_accelerometer_data: a dict with float keys
x, y, z and a timestamp string. -/
structure FallReading where
  x : ℝ
  y : ℝ
  z : ℝ
  timestamp : String

/-- Acceleration magnitude sqrt(x^2 + y^2 + z^2) of one reading. -/
noncomputable def fallMag (r : FallReading) : ℝ :=
  Real.sqrt (r.x ^ 2 + r.y ^ 2 + r.z ^ 2)

/-- The alert dict built by FallDetectionService._trigger_fall_alert (and
appended to fall_history).  The random alert_id is produced by an external
entropy source and is not part of the model.  auto_emergency_call is the
proposition confidence > 0.9, exactly the Python boolean expression. -/
structure FallAlert where
  patient_id : ℕ
  alert_type : String
  timestamp : String
  confidence : ℝ
  impact_x : ℝ
  impact_y : ℝ
  impact_z : ℝ
  status : String
  severity : String
  auto_emergency_call : Prop

/-- FallDetectionService._trigger_fall_alert. -/
noncomputable def trigger_fall_alert (patient_id : ℕ) (impact_data : FallReading)
    (confidence : ℝ) : FallAlert :=
  { patient_id := patient_id
    alert_type := "fall_detected"
    timestamp := impact_data.timestamp
    confidence := confidence
    impact_x := impact_data.x
    impact_y := impact_data.y
    impact_z := impact_data.z
    status := "active"
    severity := "critical"
    auto_emergency_call := confidence > 0.9 }

/-- The three dict shapes analyze_accelerometer_data can return.
noFallEmpty models the bare dict for an empty batch; noFall
carries max observed acceleration in g; fallAlert is the alert dict, which
is also the only case in which an alert is appended to fall_history. -/
inductive FallOutcome
  | noFallEmpty
  | noFall (max_acceleration : ℝ)
  | fallAlert (a : FallAlert)

/-- FallDetectionService.analyze_accelerometer_data: impact when some
magnitude exceeds 2.5 g (2.5 * 9.81 m/s^2); then, if a full 2-second
window (2 * sampling_rate_hz samples) follows the first impact sample, a
fall is declared when that window's mean magnitude stays below 1.5 * 9.81,
with confidence fixed at 0.85. -/
noncomputable def analyze_accelerometer_data (patient_id : ℕ)
    (readings : List FallReading) (sampling_rate_hz : ℕ) : FallOutcome :=
  match readings with
  | [] => FallOutcome.noFallEmpty
  | r0 :: rest =>
    let magnitudes := (r0 :: rest).map fallMag
    let impact_detected := listMax magnitudes > 2.5 * 9.81
    let noFallResult := FallOutcome.noFall (listMax magnitudes / 9.81)
    if impact_detected then
      let impact_index := argmaxIdx magnitudes
      let window_size := 2 * sampling_rate_hz
      if impact_index + window_size < magnitudes.length then
        let post_impact_data := (magnitudes.drop impact_index).take window_size
        if listMean post_impact_data < 1.5 * 9.81 then
          FallOutcome.fallAlert
            (trigger_fall_alert patient_id ((r0 :: rest).getD impact_index r0) 0.85)
        else noFallResult
      else noFallResult
    else noFallResult

/- ----------------------------------------------------------------------
GPSWanderingService (safety_monitoring_service.py)
---------------------------------------------------------------------- -/

/-- An active-time window of a safe zone.  The source stores the window as
a pair of "HH:MM" strings and parses them with strptime at check time; the
model carries the parsed value directly as seconds of day (strptime of
"HH:MM" yields the time HH:MM:00, i.e. 3600 * HH + 60 * MM seconds).
The field stop models the dict key named end. -/
structure TimeWindow where
  start : ℚ
  stop : ℚ

/-- A safe zone dict as built by GPSWanderingService.create_safe_zone.
The random zone_id and the created_at wall-clock stamp come from external
entropy/clock sources and are not part of the model. -/
structure SafeZone where
  patient_id : ℕ
  name : String
  center_lat : ℝ
  center_lon : ℝ
  radius_meters : ℝ
  active_times : List TimeWindow
  enabled : Bool

/-- GPSWanderingService.create_safe_zone: active_times defaults to the
single window 00:00 to 23:59, i.e. 0 to 86340 seconds of day, and the zone
is created enabled. -/
def create_safe_zone (patient_id : ℕ) (zone_name : String)
    (center_lat center_lon radius_meters : ℝ)
    (active_times : Option (List TimeWindow)) : SafeZone :=
  { patient_id := patient_id
    name := zone_name
    center_lat := center_lat
    center_lon := center_lon
    radius_meters := radius_meters
    active_times := active_times.getD [{ start := 0, stop := 86340 }]
    enabled := true }

/-- The start <= current_time <= end test of check_location, on one window.
Python datetime.time comparison is lexicographic on (hour, minute, second,
microsecond), which coincides with comparison of seconds of day. -/
def window_active (w : TimeWindow) (current_time : ℚ) : Bool :=
  w.start ≤ current_time ∧ current_time ≤ w.stop

/-- Whether any of the zone's active_times windows contains current_time
(the inner for/break loop of check_location). -/
def zone_time_active (z : SafeZone) (current_time : ℚ) : Bool :=
  z.active_times.any fun w => window_active w current_time

/-- np.radians: degrees to radians. -/
noncomputable def npRadians (d : ℝ) : ℝ := d * Real.pi / 180

/-- np.arctan2 with its standard quadrant conventions. -/
noncomputable def arctan2 (y x : ℝ) : ℝ :=
  if x > 0 then Real.arctan (y / x)
  else if x < 0 ∧ 0 ≤ y then Real.arctan (y / x) + Real.pi
  else if x < 0 ∧ y < 0 then Real.arctan (y / x) - Real.pi
  else if x = 0 ∧ y > 0 then Real.pi / 2
  else if x = 0 ∧ y < 0 then -(Real.pi / 2)
  else 0

/-- GPSWanderingService._calculate_distance: haversine distance in meters
with Earth radius 6371000 m. -/
noncomputable def calculate_distance (lat1 lon1 lat2 lon2 : ℝ) : ℝ :=
  let R : ℝ := 6371000
  let phi1 := npRadians lat1
  let phi2 := npRadians lat2
  let delta_phi := npRadians (lat2 - lat1)
  let delta_lambda := npRadians (lon2 - lon1)
  let a := Real.sin (delta_phi / 2) ^ 2 +
    Real.cos phi1 * Real.cos phi2 * Real.sin (delta_lambda / 2) ^ 2
  let c := 2 * arctan2 (Real.sqrt a) (Real.sqrt (1 - a))
  R * c

/-- The zone loop of check_location: scans the patient's zones in order,
skipping disabled zones and zones with no active window at current_time;
each remaining zone's name is recorded as active, and the loop breaks at
the first active zone whose center is within radius_meters of the fix.
Returns (inside_safe_zone, active_zones). -/
noncomputable def scan_zones (lat lon : ℝ) (current_time : ℚ) :
    List SafeZone → Bool × List String
  | [] => (false, [])
  | z :: rest =>
    if z.enabled = false then scan_zones lat lon current_time rest
    else if zone_time_active z current_time = false then
      scan_zones lat lon current_time rest
    else if calculate_distance lat lon z.center_lat z.center_lon ≤ z.radius_meters then
      (true, [z.name])
    else
      let r := scan_zones lat lon current_time rest
      (r.1, z.name :: r.2)

/-- The wandering alert dict built by
GPSWanderingService._trigger_wandering_alert (random alert_id external). -/
structure WanderingAlert where
  patient_id : ℕ
  alert_type : String
  latitude : ℝ
  longitude : ℝ
  status : String
  severity : String

/-- GPSWanderingService._trigger_wandering_alert. -/
def trigger_wandering_alert (patient_id : ℕ) (latitude longitude : ℝ) :
    WanderingAlert :=
  { patient_id := patient_id
    alert_type := "wandering"
    latitude := latitude
    longitude := longitude
    status := "active"
    severity := "high" }

/-- The result dict of GPSWanderingService.check_location. -/
structure CheckLocationResult where
  patient_id : ℕ
  latitude : ℝ
  longitude : ℝ
  inside_safe_zone : Bool
  active_zones : List String
  alert_triggered : Bool
  alert : Option WanderingAlert

/-- GPSWanderingService.check_location for a patient whose stored zone list
(self.safe_zones.get(patient_id, [])) is zones, at a fix (latitude,
longitude) whose timestamp has time-of-day current_time (in seconds).  The
location-history append only records the input and does not influence the
result; it is external state not modelled here.  A wandering alert is
triggered exactly when the fix is inside no zone while at least one zone
was active. -/
noncomputable def check_location (patient_id : ℕ) (zones : List SafeZone)
    (latitude longitude : ℝ) (current_time : ℚ) : CheckLocationResult :=
  let scanned := scan_zones latitude longitude current_time zones
  let inside_safe_zone := scanned.1
  let active_zones := scanned.2
  let alert_triggered := inside_safe_zone = false ∧ active_zones ≠ []
  { patient_id := patient_id
    latitude := latitude
    longitude := longitude
    inside_safe_zone := inside_safe_zone
    active_zones := active_zones
    alert_triggered := alert_triggered
    alert := if alert_triggered then
        some (trigger_wandering_alert patient_id latitude longitude)
      else none }

/- ----------------------------------------------------------------------
SleepAnalyzer (behavioral_analysis_service.py)
---------------------------------------------------------------------- -/

/-- One nightly sleep record handed to SleepAnalyzer.analyze_sleep_data. -/
structure SleepSession where
  date : String
  total_sleep_min : ℚ
  rem_min : ℚ
  deep_min : ℚ
  awakenings : ℚ
  efficiency : ℚ

/-- SleepAnalyzer._calculate_sleep_quality: the 0-100 composite of duration,
REM percentage, efficiency and awakenings scores with weights
0.3 / 0.3 / 0.25 / 0.15. -/
def calculate_sleep_quality (duration rem_percentage efficiency awakenings : ℚ) : ℚ :=
  let optimal_duration : ℚ := 480
  let duration_score := 1 - min (|duration - optimal_duration| / optimal_duration) 1
  let rem_score := min (rem_percentage / 25) 1
  let efficiency_score := efficiency
  let awakening_score := 1 - min (awakenings / 10) 1
  (duration_score * 0.3 + rem_score * 0.3 + efficiency_score * 0.25 +
    awakening_score * 0.15) * 100

/-- The cognitive risk factor strings appended by analyze_sleep_data. -/
def sleep_risk_factors (avg_total_sleep rem_percentage avg_awakenings
    avg_efficiency : ℚ) : List String :=
  (if avg_total_sleep < 360 then ["Insufficient sleep duration"] else []) ++
  (if rem_percentage < 15 then ["Reduced REM sleep"] else []) ++
  (if avg_awakenings > 5 then ["Frequent awakenings"] else []) ++
  (if avg_efficiency < 0.85 then ["Poor sleep efficiency"] else [])

/-- SleepAnalyzer._generate_sleep_recommendations. -/
def generate_sleep_recommendations (duration rem_pct efficiency : ℚ) : List String :=
  let recs :=
    (if duration < 360 then ["Aim for 7-9 hours of sleep per night"] else []) ++
    (if rem_pct < 15 then
      ["Avoid alcohol before bed (reduces REM sleep)",
       "Maintain consistent sleep schedule"] else []) ++
    (if efficiency < 0.85 then
      ["Improve sleep hygiene: dark room, comfortable temperature, no screens before bed"]
     else [])
  if recs = [] then ["Maintain current healthy sleep patterns"] else recs

/-- The full-analysis dict of SleepAnalyzer.analyze_sleep_data (the nonempty
branch).  sleep_variability is the one real-valued field: np.std of the
durations over their mean. -/
structure SleepReport where
  analysis_period_days : ℕ
  total_sleep_hours : ℚ
  rem_sleep_minutes : ℚ
  deep_sleep_minutes : ℚ
  rem_percentage : ℚ
  awakenings_per_night : ℚ
  sleep_efficiency : ℚ
  sleep_variability : ℝ
  sleep_quality_score : ℚ
  risk_factors : List String
  cognitive_impact : String
  recommendations : List String

/-- Either the error dict for an empty session list or the full report. -/
inductive SleepResult
  | error (msg : String)
  | report (r : SleepReport)

/-- SleepAnalyzer.analyze_sleep_data. -/
noncomputable def analyze_sleep_data (sleep_sessions : List SleepSession) : SleepResult :=
  match sleep_sessions with
  | [] => SleepResult.error "No sleep data provided"
  | s0 :: rest =>
    let sessions := s0 :: rest
    let avg_total_sleep := listMeanQ (sessions.map SleepSession.total_sleep_min)
    let avg_rem := listMeanQ (sessions.map SleepSession.rem_min)
    let avg_deep := listMeanQ (sessions.map SleepSession.deep_min)
    let avg_awakenings := listMeanQ (sessions.map SleepSession.awakenings)
    let avg_efficiency := listMeanQ (sessions.map SleepSession.efficiency)
    let rem_percentage := if avg_total_sleep > 0 then avg_rem / avg_total_sleep * 100 else 0
    let sleep_durations : List ℝ := sessions.map fun s => (s.total_sleep_min : ℝ)
    let sleep_variability : ℝ :=
      if listMean sleep_durations > 0 then listStd sleep_durations / listMean sleep_durations
      else 0
    let risk_factors :=
      sleep_risk_factors avg_total_sleep rem_percentage avg_awakenings avg_efficiency
    let sleep_quality :=
      calculate_sleep_quality avg_total_sleep rem_percentage avg_efficiency avg_awakenings
    SleepResult.report
      { analysis_period_days := sessions.length
        total_sleep_hours := avg_total_sleep / 60
        rem_sleep_minutes := avg_rem
        deep_sleep_minutes := avg_deep
        rem_percentage := rem_percentage
        awakenings_per_night := avg_awakenings
        sleep_efficiency := avg_efficiency
        sleep_variability := sleep_variability
        sleep_quality_score := sleep_quality
        risk_factors := risk_factors
        cognitive_impact :=
          if 3 ≤ risk_factors.length then "high"
          else if 2 ≤ risk_factors.length then "moderate" else "low"
        recommendations :=
          generate_sleep_recommendations avg_total_sleep rem_percentage avg_efficiency }

/- ----------------------------------------------------------------------
SpeechAnalysisService (speech_analysis_service.py)
---------------------------------------------------------------------- -/

/-- Python str.split() with no argument: split on whitespace runs, dropping
empty pieces. -/
def pyWords (s : String) : List String :=
  (s.split Char.isWhitespace).filter fun w => w ≠ ""

/-- Maximal alphanumeric runs of a string: the \w+ tokens a regex scanner
iterates over (\w also matches the underscore; that difference is
irrelevant to every property proved here, where only the count's
nonnegativity matters). -/
def wordTokens (s : String) : List String :=
  (s.split fun c => !c.isAlphanum).filter fun w => w ≠ ""

/-- Number of non-overlapping occurrences of a nonempty pattern in s, as
counted by re.findall on a literal pattern. -/
def countOccurrences (s pat : String) : ℕ := (s.splitOn pat).length - 1

/-- Whether s contains pat, as the Python substring test pat in s. -/
def containsSubstr (s pat : String) : Bool := 2 ≤ (s.splitOn pat).length

/-- A token matching the hesitation alternatives um+ | uh+ | er+ | ah+ of
the first hesitation regex in _detect_word_finding_difficulty. -/
def isHesitationToken (w : String) : Bool :=
  match w.toList with
  | [] => false
  | c :: rest =>
    !rest.isEmpty ∧
    ((c = 'u' ∧ rest.all fun d => d = 'm') ∨
     (c = 'u' ∧ rest.all fun d => d = 'h') ∨
     (c = 'e' ∧ rest.all fun d => d = 'r') ∨
     (c = 'a' ∧ rest.all fun d => d = 'h'))

/-- Matches of the third hesitation pattern (a word trailing off into an
ellipsis): occurrences of "..." immediately preceded by a word character. -/
def ellipsisCount : List Char → ℕ
  | a :: '.' :: '.' :: '.' :: rest =>
    if a.isAlphanum then 1 + ellipsisCount rest
    else ellipsisCount ('.' :: '.' :: '.' :: rest)
  | _ :: rest => ellipsisCount rest
  | [] => 0
termination_by l => l.length

/-- Matches of the fourth hesitation pattern, a stuttered word w-w: a
whitespace token containing two identical nonempty hyphen-separated parts
in a row. -/
def hyphenStutter (w : String) : Bool :=
  let parts := w.splitOn "-"
  (List.zip parts parts.tail).any fun p => p.1 ≠ "" ∧ p.1 = p.2

/-- Total hesitation_count of _detect_word_finding_difficulty over the
lower-cased transcript: the four regex patterns modelled at word /
substring level (word-boundary anchors approximated by alphanumeric-run
tokenization). -/
def hesitation_count (transcript : String) : ℕ :=
  let low := transcript.toLower
  (wordTokens low).countP (fun w => isHesitationToken w) +
  (countOccurrences low "what\u0027s" + countOccurrences low "what is" +
   countOccurrences low "the thing" + countOccurrences low "you know" +
   countOccurrences low "like") +
  ellipsisCount low.toList +
  (pyWords low).countP fun w => hyphenStutter w

/-- False starts: occurrences of a word character, then a hyphen, then a
whitespace character (the \b\w+-\s pattern), counted on the raw
transcript. -/
def falseStartCount : List Char → ℕ
  | a :: '-' :: c :: rest =>
    if a.isAlphanum ∧ c.isWhitespace then 1 + falseStartCount (c :: rest)
    else falseStartCount ('-' :: c :: rest)
  | _ :: rest => falseStartCount rest
  | [] => 0
termination_by l => l.length

/-- The pause metrics dict of SpeechAnalysisService._analyze_pauses.  A
missing pause list and an empty one take the same zeroed branch, so the
model carries just the list.  pauseFrac models the pause_ratio key (the
total pause time over the total duration). -/
structure PauseMetrics where
  pause_count : ℕ
  total_pause_duration : ℚ
  average_pause_duration : ℚ
  pauseFrac : ℚ
  long_pause_count : ℕ

/-- SpeechAnalysisService._analyze_pauses (max_pause_duration is the
constructor constant 2.0 s). -/
def analyze_pauses (pause_timestamps : List (ℚ × ℚ)) (total_duration : ℚ) :
    PauseMetrics :=
  match pause_timestamps with
  | [] =>
    { pause_count := 0, total_pause_duration := 0, average_pause_duration := 0,
      pauseFrac := 0, long_pause_count := 0 }
  | p :: ps =>
    let pause_durations := (p :: ps).map fun q => q.2 - q.1
    let total_pause_time := pause_durations.sum
    { pause_count := (p :: ps).length
      total_pause_duration := total_pause_time
      average_pause_duration := listMeanQ pause_durations
      pauseFrac := if total_duration > 0 then total_pause_time / total_duration else 0
      long_pause_count := (pause_durations.filter fun d => d > 2).length }

/-- The word-finding dict of _detect_word_finding_difficulty (the unused
word_timestamps parameter is dropped). -/
structure WordFindingMetrics where
  hesitations : ℕ
  false_starts : ℕ
  difficulty_score : ℚ
  severity : String

/-- SpeechAnalysisService._detect_word_finding_difficulty. -/
def detect_word_finding_difficulty (transcript : String) (words : List String) :
    WordFindingMetrics :=
  let hes := hesitation_count transcript
  let fs := falseStartCount transcript.toList
  let word_count := words.length
  let difficulty_score : ℚ :=
    if word_count > 0 then ((hes : ℚ) + fs) / word_count else 0
  { hesitations := hes
    false_starts := fs
    difficulty_score := min difficulty_score 1
    severity :=
      if difficulty_score > 0.15 then "high"
      else if difficulty_score > 0.08 then "moderate" else "low" }

/-- The sentence list of _calculate_semantic_coherence: split on . ! ?
runs, stripped, empties dropped (re.split on [.!?]+ followed by the strip
filter yields the same list as splitting on the individual characters and
filtering). -/
def speechSentences (transcript : String) : List String :=
  ((transcript.split fun c => c = '.' ∨ c = '!' ∨ c = '?').map String.trim).filter
    fun s => s ≠ ""

/-- The connective words of _calculate_semantic_coherence. -/
def speechConnectors : List String :=
  ["and", "but", "so", "then", "therefore", "however", "because"]

/-- SpeechAnalysisService._calculate_semantic_coherence. -/
def calculate_semantic_coherence (transcript : String) : ℚ :=
  let sentences := speechSentences transcript
  if sentences.length < 2 then 1
  else
    let complete_sentences := sentences.countP fun s => 4 ≤ (pyWords s).length
    let completeness : ℚ := (complete_sentences : ℚ) / sentences.length
    let connector_count : ℕ :=
      (sentences.map fun s =>
        speechConnectors.countP fun w => containsSubstr s.toLower w).sum
    completeness * 0.7 + min ((connector_count : ℚ) / sentences.length) 1 * 0.3

/-- The filler word set of the SpeechAnalysisService constructor.  The two
multi-word entries can never equal a single whitespace-split word, exactly
as in the source, where the set is only ever probed with such words. -/
def filler_words : List String :=
  ["um", "uh", "er", "ah", "like", "you know", "i mean",
   "basically", "actually", "literally", "well", "so"]

/-- The vocabulary dict of _analyze_vocabulary.  ttr models the
type_token_unique-over-content quotient key. -/
structure VocabularyMetrics where
  total_words : ℕ
  content_words : ℕ
  unique_words : ℕ
  ttr : ℚ
  average_word_length : ℚ
  complexity_score : ℚ

/-- SpeechAnalysisService._analyze_vocabulary. -/
def analyze_vocabulary (words : List String) : VocabularyMetrics :=
  match words with
  | [] =>
    { total_words := 0, content_words := 0, unique_words := 0, ttr := 0,
      average_word_length := 0, complexity_score := 0 }
  | w0 :: rest =>
    let words := w0 :: rest
    let content_words := words.filter fun w => w ∉ filler_words
    let unique_words := content_words.dedup
    let ttr : ℚ :=
      if content_words ≠ [] then (unique_words.length : ℚ) / content_words.length else 0
    let avg_length : ℚ :=
      if content_words ≠ [] then
        listMeanQ (content_words.map fun w => (w.length : ℚ))
      else 0
    { total_words := words.length
      content_words := content_words.length
      unique_words := unique_words.length
      ttr := ttr
      average_word_length := avg_length
      complexity_score := ttr * 0.6 + min (avg_length / 10) 1 * 0.4 }

/-- The repetition dict of _detect_repetitions. -/
structure RepetitionMetrics where
  word_repetitions : ℕ
  phrase_repetitions : ℕ
  repetition_rate : ℚ
  severity : String

/-- The 3-word phrases words[i:i+3] scanned by _detect_repetitions. -/
def speechTrigrams (words : List String) : List (List String) :=
  (List.range (words.length - 2)).map fun i => (words.drop i).take 3

/-- SpeechAnalysisService._detect_repetitions: words used more often than
5 percent of the total, plus repeated 3-word phrases. -/
def detect_repetitions (words : List String) : RepetitionMetrics :=
  match words with
  | [] =>
    { word_repetitions := 0, phrase_repetitions := 0, repetition_rate := 0,
      severity := "low" }
  | w0 :: rest =>
    let words := w0 :: rest
    let threshold : ℚ := (words.length : ℚ) * 0.05
    let excessive_reps :=
      words.dedup.countP fun w => (words.count w : ℚ) > threshold
    let phrases := speechTrigrams words
    let phrase_reps := phrases.dedup.countP fun p => 1 < phrases.count p
    let repetition_rate : ℚ := ((excessive_reps : ℚ) + phrase_reps) / words.length
    { word_repetitions := excessive_reps
      phrase_repetitions := phrase_reps
      repetition_rate := repetition_rate
      severity :=
        if repetition_rate > 0.10 then "high"
        else if repetition_rate > 0.05 then "moderate" else "low" }

/-- The filler dict of _count_filler_words.  fillerFrac models the
filler-count-over-word-count quotient key. -/
structure FillerMetrics where
  filler_count : ℕ
  fillerFrac : ℚ
  severity : String

/-- SpeechAnalysisService._count_filler_words. -/
def count_filler_words (words : List String) (total_words : ℕ) : FillerMetrics :=
  let filler_count := words.countP fun w => w ∈ filler_words
  let frac : ℚ := if total_words > 0 then (filler_count : ℚ) / total_words else 0
  { filler_count := filler_count
    fillerFrac := frac
    severity :=
      if frac > 0.15 then "high" else if frac > 0.08 then "moderate" else "low" }

/-- SpeechAnalysisService._calculate_cognitive_score over the seven metric
values the analyze_speech_recording call site always supplies (the dict
.get defaults are therefore never taken). -/
def calculate_cognitive_score (speech_rate pauseFrac word_finding_score coherence
    vocabulary_diversity repetition_rate fillerFrac : ℚ) : ℚ :=
  let rate_score := 1 - min (speech_rate / 200) 1
  let pause_score := 1 - min (pauseFrac * 5) 1
  let wf_score := 1 - min (word_finding_score * 3) 1
  let coherence_score := coherence
  let vocab_score := vocabulary_diversity
  let rep_score := 1 - min (repetition_rate * 10) 1
  let filler_score := 1 - min (fillerFrac * 5) 1
  (rate_score * 0.15 + pause_score * 0.20 + wf_score * 0.25 +
   coherence_score * 0.15 + vocab_score * 0.10 + rep_score * 0.10 +
   filler_score * 0.05) * 100

/-- SpeechAnalysisService._assess_risk_level. -/
def assess_risk_level (cognitive_score : ℚ) : String :=
  if 80 ≤ cognitive_score then "low"
  else if 65 ≤ cognitive_score then "moderate"
  else if 50 ≤ cognitive_score then "high"
  else "very_high"

/-- SpeechAnalysisService._generate_recommendations. -/
def speech_recommendations (score : ℚ) (risk_level : String) : List String :=
  let recs :=
    (if risk_level = "high" ∨ risk_level = "very_high" then
      ["Consider comprehensive cognitive evaluation by a specialist",
       "Schedule follow-up speech analysis in 1-2 weeks"] else []) ++
    (if score < 70 then
      ["Practice word-finding exercises and vocabulary games",
       "Engage in regular conversation with family and friends"] else []) ++
    (if score < 80 then ["Monitor speech patterns during future assessments"] else [])
  if recs = [] then ["Continue regular cognitive monitoring"] else recs

/-- The result of SpeechAnalysisService.analyze_speech_recording (the
word_timestamps parameter is never read by the source and is dropped). -/
structure SpeechReport where
  duration_seconds : ℚ
  word_count : ℕ
  speech_rate_wpm : ℚ
  baseline_deviation : ℚ
  pauses : PauseMetrics
  word_finding : WordFindingMetrics
  semantic_coherence : ℚ
  vocabulary : VocabularyMetrics
  repetitions : RepetitionMetrics
  fillers : FillerMetrics
  cognitive_score : ℚ
  risk_level : String
  recommendations : List String

/-- SpeechAnalysisService.analyze_speech_recording (baseline_wpm is the
constructor constant 150). -/
def analyze_speech_recording (transcript : String) (audio_duration : ℚ)
    (pause_timestamps : List (ℚ × ℚ)) : SpeechReport :=
  let words := pyWords transcript.toLower
  let word_count := words.length
  let speech_rate : ℚ :=
    if audio_duration > 0 then (word_count : ℚ) / audio_duration * 60 else 0
  let pause_metrics := analyze_pauses pause_timestamps audio_duration
  let word_finding := detect_word_finding_difficulty transcript words
  let coherence := calculate_semantic_coherence transcript
  let vocab := analyze_vocabulary words
  let reps := detect_repetitions words
  let fillers := count_filler_words words word_count
  let cognitive_score := calculate_cognitive_score speech_rate pause_metrics.pauseFrac
    word_finding.difficulty_score coherence vocab.ttr reps.repetition_rate
    fillers.fillerFrac
  let risk_level := assess_risk_level cognitive_score
  { duration_seconds := audio_duration
    word_count := word_count
    speech_rate_wpm := speech_rate
    baseline_deviation := |speech_rate - 150| / 150
    pauses := pause_metrics
    word_finding := word_finding
    semantic_coherence := coherence
    vocabulary := vocab
    repetitions := reps
    fillers := fillers
    cognitive_score := cognitive_score
    risk_level := risk_level
    recommendations := speech_recommendations cognitive_score risk_level }

/- ----------------------------------------------------------------------
EyeTrackingAnalyzer (behavioral_analysis_service.py)
---------------------------------------------------------------------- -/

/-- A fixation event dict handed to EyeTrackingAnalyzer.analyze_gaze_data. -/
structure Fixation where
  x : ℝ
  y : ℝ
  duration : ℝ

/-- A saccade event dict handed to EyeTrackingAnalyzer.analyze_gaze_data. -/
structure Saccade where
  start_x : ℝ
  start_y : ℝ
  end_x : ℝ
  end_y : ℝ
  duration : ℝ
  velocity : ℝ

/-- EyeTrackingAnalyzer._calculate_dispersion: mean Euclidean distance of
the fixation points from their centroid, 0 with fewer than two points. -/
noncomputable def calculate_dispersion (coords : List (ℝ × ℝ)) : ℝ :=
  if coords.length < 2 then 0
  else
    let cx := listMean (coords.map Prod.fst)
    let cy := listMean (coords.map Prod.snd)
    listMean (coords.map fun p => Real.sqrt ((p.1 - cx) ^ 2 + (p.2 - cy) ^ 2))

/-- EyeTrackingAnalyzer._assess_smooth_pursuit: 0.5 with no saccades, else
1 - min(coefficient of variation of the velocities, 1), the coefficient
being 1 when the mean velocity is not positive. -/
noncomputable def assess_smooth_pursuit (saccades : List Saccade) : ℝ :=
  match saccades with
  | [] => 0.5
  | s :: ss =>
    let velocities := (s :: ss).map Saccade.velocity
    let cv :=
      if listMean velocities > 0 then listStd velocities / listMean velocities else 1
    1 - min cv 1

/-- EyeTrackingAnalyzer._calculate_eye_tracking_risk, over the four metric
values the analyze_gaze_data call site supplies (the dispersion entry of
the metrics dict is received but never read, exactly as in the source). -/
noncomputable def calculate_eye_tracking_risk (fixation_duration saccade_velocity
    _dispersion pursuit_quality : ℝ) : ℝ :=
  let fixation_abnormal := |fixation_duration - 300| / 300
  let saccade_abnormal := |saccade_velocity - 350| / 350
  min ((fixation_abnormal + saccade_abnormal + (1 - pursuit_quality)) / 3) 1

/-- EyeTrackingAnalyzer._detect_abnormalities. -/
noncomputable def detect_abnormalities (fixation_duration saccade_velocity : ℝ) :
    List String :=
  (if fixation_duration > 500 then
    ["Prolonged fixations (may indicate processing difficulty)"]
   else if fixation_duration < 150 then
    ["Brief fixations (may indicate attention deficit)"]
   else []) ++
  (if saccade_velocity < 200 then
    ["Slow saccades (potential motor control issue)"]
   else if saccade_velocity > 600 then ["Hyperactive saccades"] else [])

/-- The result dict of EyeTrackingAnalyzer.analyze_gaze_data. -/
structure GazeReport where
  fixation_count : ℕ
  average_fixation_duration : ℝ
  fixation_rate : ℝ
  saccade_count : ℕ
  average_saccade_velocity : ℝ
  average_amplitude : ℝ
  saccade_rate : ℝ
  gaze_dispersion : ℝ
  smooth_pursuit_quality : ℝ
  cognitive_load_estimate : ℝ
  risk_score : ℝ
  abnormalities : List String

/-- EyeTrackingAnalyzer.analyze_gaze_data.  Every np.mean call is guarded
by an emptiness test in the source, so no NaN reaches the output. -/
noncomputable def analyze_gaze_data (fixations : List Fixation)
    (saccades : List Saccade) (test_duration : ℝ) : GazeReport :=
  let fixation_durations := fixations.map Fixation.duration
  let avg_fixation_duration :=
    if fixation_durations ≠ [] then listMean fixation_durations else 0
  let saccade_velocities := saccades.map Saccade.velocity
  let avg_saccade_velocity :=
    if saccade_velocities ≠ [] then listMean saccade_velocities else 0
  let amplitudes := saccades.map fun s =>
    Real.sqrt ((s.end_x - s.start_x) ^ 2 + (s.end_y - s.start_y) ^ 2)
  let avg_amplitude := if amplitudes ≠ [] then listMean amplitudes else 0
  let dispersion := calculate_dispersion (fixations.map fun f => (f.x, f.y))
  let pursuit_quality := assess_smooth_pursuit saccades
  let fixation_rate :=
    if test_duration > 0 then (fixations.length : ℝ) / test_duration else 0
  let saccade_rate :=
    if test_duration > 0 then (saccades.length : ℝ) / test_duration else 0
  { fixation_count := fixations.length
    average_fixation_duration := avg_fixation_duration
    fixation_rate := fixation_rate
    saccade_count := saccades.length
    average_saccade_velocity := avg_saccade_velocity
    average_amplitude := avg_amplitude
    saccade_rate := saccade_rate
    gaze_dispersion := dispersion
    smooth_pursuit_quality := pursuit_quality
    cognitive_load_estimate := min ((fixation_rate + saccade_rate) / 10) 1
    risk_score := calculate_eye_tracking_risk avg_fixation_duration
      avg_saccade_velocity dispersion pursuit_quality
    abnormalities := detect_abnormalities avg_fixation_duration avg_saccade_velocity }

/-- A concrete batch that does trigger a fall: an impact of 25 m/s^2 on the
z axis (above 2.5 g = 24.525), followed at 1 Hz by two still samples, so
the 2-sample post-impact window [25, 0] has mean 12.5 < 1.5 g = 14.715. -/
def fallWitnessBatch : List FallReading :=
  [{ x := 0, y := 0, z := 25, timestamp := "t0" },
   { x := 0, y := 0, z := 0, timestamp := "t1" },
   { x := 0, y := 0, z := 0, timestamp := "t2" }]

/- ----------------------------------------------------------------------
Helper lemmas
---------------------------------------------------------------------- -/

theorem min_one_mem_Icc {α : Type} [LinearOrderedField α] {x : α} (hx : 0 ≤ x) :
    0 ≤ min x 1 ∧ min x 1 ≤ 1 :=
  ⟨le_min hx zero_le_one, min_le_right x 1⟩

theorem one_sub_min_one_mem_Icc {α : Type} [LinearOrderedField α] {x : α}
    (hx : 0 ≤ x) : 0 ≤ 1 - min x 1 ∧ 1 - min x 1 ≤ 1 := by
  have h := min_one_mem_Icc hx
  constructor <;> linarith [h.1, h.2]

theorem listStd_nonneg (l : List ℝ) : 0 ≤ listStd l := Real.sqrt_nonneg _

theorem listMeanQ_nonneg {l : List ℚ} (h : ∀ x ∈ l, 0 ≤ x) : 0 ≤ listMeanQ l := by
  unfold listMeanQ
  exact div_nonneg (List.sum_nonneg h) (Nat.cast_nonneg _)

theorem listMeanQ_le_one {l : List ℚ} (hne : l ≠ []) (h : ∀ x ∈ l, x ≤ 1) :
    listMeanQ l ≤ 1 := by
  unfold listMeanQ
  have hlen : 0 < (l.length : ℚ) := by
    have : 0 < l.length := List.length_pos.mpr hne
    exact_mod_cast this
  rw [div_le_one hlen]
  have := List.sum_le_card_nsmul l 1 h
  simpa using this

/- ----------------------------------------------------------------------
C6: sleep quality is strictly increasing in efficiency
---------------------------------------------------------------------- -/

/-- C6: with the mean sleep duration, REM percentage and awakenings count
fixed, the sleep quality score of SleepAnalyzer._calculate_sleep_quality is
strictly increasing in the efficiency argument (its weight 0.25 * 100 is
positive and no other term depends on efficiency). -/
theorem sleep_quality_strict_mono_in_efficiency
    (duration rem_percentage awakenings e1 e2 : ℚ) (h : e1 < e2) :
    calculate_sleep_quality duration rem_percentage e1 awakenings <
      calculate_sleep_quality duration rem_percentage e2 awakenings := by
  unfold calculate_sleep_quality
  dsimp only
  linarith

/-- Witness for C6 at a concrete input: raising efficiency from 0.5 to 0.9
with duration 480, REM percentage 20 and 2 awakenings strictly raises the
quality score. -/
theorem sleep_quality_strict_mono_in_efficiency_witness :
    calculate_sleep_quality 480 20 (1/2) 2 < calculate_sleep_quality 480 20 (9/10) 2 :=
  sleep_quality_strict_mono_in_efficiency 480 20 2 (1/2) (9/10) (by norm_num)

/- ----------------------------------------------------------------------
C10: gaze analysis of empty event lists yields a substantive report
---------------------------------------------------------------------- -/

/-- C10: for empty fixation and saccade lists and any positive test
duration, EyeTrackingAnalyzer.analyze_gaze_data returns an ordinary report
(no insufficient-data escape exists in its code): smooth pursuit quality is
the no-saccade default 0.5 and the risk score is
(|0-300|/300 + |0-350|/350 + (1-0.5)) / 3 = 5/6, a substantive high risk
computed from entirely absent data. -/
theorem gaze_empty_lists_substantive_risk (test_duration : ℝ)
    (_h : 0 < test_duration) :
    (analyze_gaze_data [] [] test_duration).smooth_pursuit_quality = 0.5 ∧
    (analyze_gaze_data [] [] test_duration).risk_score = 5 / 6 ∧
    (analyze_gaze_data [] [] test_duration).fixation_count = 0 ∧
    (analyze_gaze_data [] [] test_duration).saccade_count = 0 := by
  unfold analyze_gaze_data assess_smooth_pursuit calculate_dispersion
    calculate_eye_tracking_risk
  norm_num

/-- Witness for C10 at test duration 1 s. -/
theorem gaze_empty_lists_substantive_risk_witness :
    (analyze_gaze_data [] [] 1).smooth_pursuit_quality = 0.5 ∧
    (analyze_gaze_data [] [] 1).risk_score = 5 / 6 ∧
    (analyze_gaze_data [] [] 1).fixation_count = 0 ∧
    (analyze_gaze_data [] [] 1).saccade_count = 0 :=
  gaze_empty_lists_substantive_risk 1 (by norm_num)

/- ----------------------------------------------------------------------
C4: no active zone at the fix's time means no wandering alert
---------------------------------------------------------------------- -/

theorem scan_zones_all_inactive (lat lon : ℝ) (t : ℚ) (zones : List SafeZone)
    (h : ∀ z ∈ zones, z.enabled = true → zone_time_active z t = false) :
    scan_zones lat lon t zones = (false, []) := by
  induction zones with
  | nil => unfold scan_zones; rfl
  | cons z rest ih =>
    have hrest : ∀ w ∈ rest, w.enabled = true → zone_time_active w t = false :=
      fun w hw => h w (List.mem_cons_of_mem z hw)
    unfold scan_zones
    by_cases he : z.enabled = false
    · simp only [he, if_true]
      exact ih hrest
    · have htrue : z.enabled = true := by
        cases hb : z.enabled
        · exact absurd hb he
        · rfl
      have hz := h z (List.mem_cons_self z rest) htrue
      simp only [he, if_false, hz, if_true]
      exact ih hrest

/-- C4: a check_location call for a patient none of whose enabled zones has
an active window containing the fix's time-of-day triggers no wandering
alert, whatever the coordinates are: every zone is skipped before the
distance computation, so the active-zone list stays empty and the alert
condition (outside while at least one zone active) is false. -/
theorem check_location_no_active_zone_no_alert (patient_id : ℕ)
    (zones : List SafeZone) (latitude longitude : ℝ) (current_time : ℚ)
    (h : ∀ z ∈ zones, z.enabled = true → zone_time_active z current_time = false) :
    (check_location patient_id zones latitude longitude current_time).alert_triggered
      = false ∧
    (check_location patient_id zones latitude longitude current_time).alert = none := by
  unfold check_location
  rw [scan_zones_all_inactive latitude longitude current_time zones h]
  simp

/-- Witness for C4: one enabled zone active 08:00-20:00 (seconds 28800 to
72000), fix taken at 03:00 (10800 s), far coordinates: no alert. -/
theorem check_location_no_active_zone_no_alert_witness :
    (check_location 1
      [{ patient_id := 1, name := "home", center_lat := 40, center_lon := -73,
         radius_meters := 150,
         active_times := [{ start := 28800, stop := 72000 }], enabled := true }]
      51 7 10800).alert_triggered = false ∧
    (check_location 1
      [{ patient_id := 1, name := "home", center_lat := 40, center_lon := -73,
         radius_meters := 150,
         active_times := [{ start := 28800, stop := 72000 }], enabled := true }]
      51 7 10800).alert = none := by
  refine check_location_no_active_zone_no_alert 1 _ 51 7 10800 ?_
  intro z hz _
  simp only [List.mem_singleton] at hz
  subst hz
  decide

/- ----------------------------------------------------------------------
C9: the default 00:00-23:59 window leaves 23:59:01-23:59:59 uncovered
---------------------------------------------------------------------- -/

/-- C9: a zone created by create_safe_zone without explicit active_times
gets the single string window 00:00 to 23:59, parsed to the inclusive
seconds-of-day range [0, 86340]; so, for a check_location call whose
timestamp's time-of-day is strictly after 23:59:00 (more than 86340
seconds, e.g. 23:59:30), every such zone fails the window test and is
treated as inactive, and for a patient all of whose zones were created
with the default no wandering alert can be triggered at all; the intended
24/7 coverage has a nightly gap. -/
theorem default_active_times_gap (patient_id : ℕ) (zones : List SafeZone)
    (latitude longitude : ℝ) (current_time : ℚ)
    (hdef : ∀ z ∈ zones, ∃ p n la lo r,
      z = create_safe_zone p n la lo r none)
    (ht : 86340 < current_time) :
    (∀ z ∈ zones, zone_time_active z current_time = false) ∧
    (check_location patient_id zones latitude longitude current_time).alert_triggered
      = false ∧
    (check_location patient_id zones latitude longitude current_time).inside_safe_zone
      = false := by
  have hinactive : ∀ z ∈ zones, zone_time_active z current_time = false := by
    intro z hz
    obtain ⟨p, n, la, lo, r, rfl⟩ := hdef z hz
    unfold zone_time_active create_safe_zone window_active
    simp only [Option.getD_none, List.any_cons, List.any_nil, Bool.or_false]
    simp only [decide_eq_false_iff_not, not_and, not_le]
    intro _
    exact ht
  refine ⟨hinactive, ?_⟩
  unfold check_location
  rw [scan_zones_all_inactive latitude longitude current_time zones
    (fun z hz _ => hinactive z hz)]
  simp

/-- Witness for C9: the default zone over its patient, checked at 23:59:30
(86370 s): inactive, no alert, not inside. -/
theorem default_active_times_gap_witness :
    (∀ z ∈ [create_safe_zone 1 "home" 40 (-73) 150 none],
      zone_time_active z 86370 = false) ∧
    (check_location 1 [create_safe_zone 1 "home" 40 (-73) 150 none]
      40 (-73) 86370).alert_triggered = false ∧
    (check_location 1 [create_safe_zone 1 "home" 40 (-73) 150 none]
      40 (-73) 86370).inside_safe_zone = false := by
  refine default_active_times_gap 1 _ 40 (-73) 86370 ?_ (by norm_num)
  intro z hz
  simp only [List.mem_singleton] at hz
  exact ⟨1, "home", 40, -73, 150, hz⟩

/- ----------------------------------------------------------------------
C7: a fix exactly at an active zone's center is inside
---------------------------------------------------------------------- -/

/-- The haversine distance from a point to itself is zero: both angle
deltas vanish, so a = 0 and c = 2 * arctan2(0, 1) = 0. -/
theorem calculate_distance_self (lat lon : ℝ) :
    calculate_distance lat lon lat lon = 0 := by
  unfold calculate_distance npRadians arctan2
  simp [sub_self]

/-- If some zone of the list is enabled, time-active and contains the fix,
the scan reports inside_safe_zone = true. -/
theorem scan_zones_inside_of_mem (lat lon : ℝ) (t : ℚ) (zones : List SafeZone)
    (z : SafeZone) (hz : z ∈ zones) (he : z.enabled = true)
    (ht : zone_time_active z t = true)
    (hd : calculate_distance lat lon z.center_lat z.center_lon ≤ z.radius_meters) :
    (scan_zones lat lon t zones).1 = true := by
  induction zones with
  | nil => cases hz
  | cons w rest ih =>
    unfold scan_zones
    rcases List.mem_cons.mp hz with hzw | hzr
    · subst hzw
      simp [he, ht, hd]
    · split_ifs with h1 h2 h3
      · exact ih hzr
      · exact ih hzr
      · rfl
      · exact ih hzr

/-- C7: if z is one of the patient's zones, enabled, with some active
window containing the fix's time-of-day and a positive radius, then a
check_location call with the fix exactly at z's center reports
inside_safe_zone = true and triggers no wandering alert: the haversine
distance from the center to itself is 0, which is at most any positive
radius. -/
theorem fix_at_center_inside (patient_id : ℕ) (zones : List SafeZone)
    (z : SafeZone) (current_time : ℚ) (hz : z ∈ zones) (he : z.enabled = true)
    (ht : zone_time_active z current_time = true) (hr : 0 < z.radius_meters) :
    (check_location patient_id zones z.center_lat z.center_lon
      current_time).inside_safe_zone = true ∧
    (check_location patient_id zones z.center_lat z.center_lon
      current_time).alert_triggered = false := by
  have hd : calculate_distance z.center_lat z.center_lon z.center_lat z.center_lon ≤
      z.radius_meters := by
    rw [calculate_distance_self]
    exact le_of_lt hr
  have hin := scan_zones_inside_of_mem z.center_lat z.center_lon current_time
    zones z hz he ht hd
  unfold check_location
  constructor
  · simpa using hin
  · simp [hin]

/-- Witness for C7: a single enabled zone, active 08:00-20:00, radius
150 m, fix at its center at 10:00 (36000 s). -/
theorem fix_at_center_inside_witness :
    (check_location 1
      [{ patient_id := 1, name := "home", center_lat := 40, center_lon := -73,
         radius_meters := 150,
         active_times := [{ start := 28800, stop := 72000 }], enabled := true }]
      40 (-73) 36000).inside_safe_zone = true ∧
    (check_location 1
      [{ patient_id := 1, name := "home", center_lat := 40, center_lon := -73,
         radius_meters := 150,
         active_times := [{ start := 28800, stop := 72000 }], enabled := true }]
      40 (-73) 36000).alert_triggered = false :=
  fix_at_center_inside 1 _
    { patient_id := 1, name := "home", center_lat := 40, center_lon := -73,
      radius_meters := 150,
      active_times := [{ start := 28800, stop := 72000 }], enabled := true }
    36000 (List.mem_singleton.mpr rfl) rfl (by decide) (by norm_num)

/- ----------------------------------------------------------------------
C3: a flat-lined 1g accelerometer stream never triggers a fall
---------------------------------------------------------------------- -/

theorem listMax_of_all_eq (c : ℝ) : ∀ (l : List ℝ), l ≠ [] →
    (∀ x ∈ l, x = c) → listMax l = c := by
  intro l
  induction l with
  | nil => intro h; exact absurd rfl h
  | cons a rest ih =>
    intro _ hall
    match rest, ih with
    | [], _ => exact hall a (List.mem_cons_self a [])
    | b :: rest2, ih =>
      have ha := hall a (List.mem_cons_self a _)
      have htail := ih (by simp) fun x hx => hall x (List.mem_cons_of_mem a hx)
      unfold listMax
      rw [ha, htail, max_self]

/-- C3: for every nonempty accelerometer batch whose readings all have
vector magnitude exactly 9.81 (a stream flat-lined at 1 g) and every
sampling rate, FallDetectionService.analyze_accelerometer_data reports no
fall and triggers no fall alert: the maximum magnitude 9.81 never exceeds
the 2.5 g impact threshold, so the result is the no-fall dict with max
acceleration 9.81 / 9.81 = 1 g. -/
theorem flatline_one_g_no_fall (patient_id : ℕ) (readings : List FallReading)
    (sampling_rate_hz : ℕ) (hne : readings ≠ [])
    (hmag : ∀ r ∈ readings, fallMag r = 9.81) :
    analyze_accelerometer_data patient_id readings sampling_rate_hz =
      FallOutcome.noFall 1 := by
  match readings, hne with
  | r0 :: rest, _ =>
    have hmax : listMax ((r0 :: rest).map fallMag) = 9.81 := by
      refine listMax_of_all_eq _ _ (by simp) ?_
      intro x hx
      obtain ⟨r, hr, rfl⟩ := List.mem_map.mp hx
      exact hmag r hr
    unfold analyze_accelerometer_data
    dsimp only
    rw [hmax, if_neg (by norm_num)]
    norm_num

/-- Witness for C3: one reading with acceleration 9.81 on the z axis (its
magnitude is sqrt(0 + 0 + 9.81 ^ 2) = 9.81) at sampling rate 50 Hz. -/
theorem flatline_one_g_no_fall_witness :
    analyze_accelerometer_data 1 [{ x := 0, y := 0, z := 9.81, timestamp := "t0" }] 50 =
      FallOutcome.noFall 1 := by
  refine flatline_one_g_no_fall 1 _ 50 (by simp) ?_
  intro r hr
  simp only [List.mem_singleton] at hr
  subst hr
  unfold fallMag
  rw [show ((0 : ℝ) ^ 2 + 0 ^ 2 + (9.81 : ℝ) ^ 2) = (9.81 : ℝ) ^ 2 by norm_num]
  exact Real.sqrt_sq (by norm_num)

/- ----------------------------------------------------------------------
C5: every emitted fall alert is critical, confidence 0.85, no auto-call
---------------------------------------------------------------------- -/

/-- C5: every fall alert analyze_accelerometer_data ever returns (and
appends to fall_history) was built by _trigger_fall_alert with the fixed
confidence 0.85; it carries severity "critical", confidence 0.85 and
auto_emergency_call defined as confidence > 0.9, which is therefore false
in every alert the service emits. -/
theorem fall_alert_fields (patient_id : ℕ) (readings : List FallReading)
    (sampling_rate_hz : ℕ) (a : FallAlert)
    (h : analyze_accelerometer_data patient_id readings sampling_rate_hz =
      FallOutcome.fallAlert a) :
    a.severity = "critical" ∧ a.confidence = 0.85 ∧
    (a.auto_emergency_call ↔ a.confidence > 0.9) ∧ ¬ a.auto_emergency_call := by
  match readings with
  | [] => exact absurd h (by unfold analyze_accelerometer_data; simp)
  | r0 :: rest =>
    unfold analyze_accelerometer_data at h
    dsimp only at h
    have ha : a = trigger_fall_alert patient_id
        ((r0 :: rest).getD (argmaxIdx ((r0 :: rest).map fallMag)) r0) 0.85 := by
      split_ifs at h with h1 h2 h3
      injection h with heq
      exact heq.symm
    subst ha
    unfold trigger_fall_alert
    refine ⟨rfl, rfl, Iff.rfl, ?_⟩
    norm_num

theorem fallWitnessMags :
    List.map fallMag
      [({ x := 0, y := 0, z := 25, timestamp := "t0" } : FallReading),
       { x := 0, y := 0, z := 0, timestamp := "t1" },
       { x := 0, y := 0, z := 0, timestamp := "t2" }] = [25, 0, 0] := by
  unfold fallMag
  simp only [List.map_cons, List.map_nil]
  rw [show ((0 : ℝ) ^ 2 + 0 ^ 2 + (25 : ℝ) ^ 2) = (25 : ℝ) ^ 2 by norm_num,
    Real.sqrt_sq (by norm_num : (0 : ℝ) ≤ 25),
    show ((0 : ℝ) ^ 2 + 0 ^ 2 + (0 : ℝ) ^ 2) = 0 by norm_num, Real.sqrt_zero]

theorem fallWitnessBatch_triggers :
    analyze_accelerometer_data 1 fallWitnessBatch 1 =
      FallOutcome.fallAlert (trigger_fall_alert 1
        { x := 0, y := 0, z := 25, timestamp := "t0" } 0.85) := by
  unfold analyze_accelerometer_data fallWitnessBatch
  dsimp only
  rw [fallWitnessMags]
  rw [if_pos (show listMax [(25 : ℝ), 0, 0] > 2.5 * 9.81 by
    unfold listMax listMax listMax
    norm_num)]
  rw [show argmaxIdx [(25 : ℝ), 0, 0] = 0 by
    unfold argmaxIdx argmaxIdx argmaxIdx
    norm_num]
  rw [if_pos (show (0 : ℕ) + 2 * 1 < ([(25 : ℝ), 0, 0]).length by norm_num)]
  rw [show List.take (2 * 1) (List.drop 0 [(25 : ℝ), 0, 0]) = [25, 0] from rfl]
  rw [if_pos (show listMean [(25 : ℝ), 0] < 1.5 * 9.81 by
    unfold listMean
    norm_num)]
  rfl

/-- Witness for C5: the fields of the alert emitted on fallWitnessBatch. -/
theorem fall_alert_fields_witness :
    (trigger_fall_alert 1 { x := 0, y := 0, z := 25, timestamp := "t0" }
      0.85).severity = "critical" ∧
    (trigger_fall_alert 1 { x := 0, y := 0, z := 25, timestamp := "t0" }
      0.85).confidence = 0.85 ∧
    ((trigger_fall_alert 1 { x := 0, y := 0, z := 25, timestamp := "t0" }
      0.85).auto_emergency_call ↔
     (trigger_fall_alert 1 { x := 0, y := 0, z := 25, timestamp := "t0" }
      0.85).confidence > 0.9) ∧
    ¬ (trigger_fall_alert 1 { x := 0, y := 0, z := 25, timestamp := "t0" }
      0.85).auto_emergency_call :=
  fall_alert_fields 1 fallWitnessBatch 1 _ fallWitnessBatch_triggers

/- ----------------------------------------------------------------------
C1: the empty gait batch yields an ordinary NaN-laden report, not an
explicit insufficient_data status
---------------------------------------------------------------------- -/

/-- C1: GaitAnalyzer.analyze_gait_data on the empty accelerometer batch
does not raise, but neither does it return an explicit insufficient_data
status (as ActivityMonitoringService does with its status key, or
SleepAnalyzer with its error key): it returns the ordinary eight-key
metrics dict, with step count 0, zero speed and variability, NaN balance
and fall-risk scores (np.std and np.mean of the empty array), risk level
"low" (NaN compares false against both thresholds) and a gait-exercise
recommendation; no status or error marker appears among its keys. -/
theorem gait_empty_batch_ordinary_report :
    analyze_gait_data [] = some
      [("step_count", PyVal.int 0),
       ("gait_speed_m_per_s", PyVal.real 0),
       ("stride_variability", PyVal.real 0),
       ("balance_score", PyVal.nan),
       ("cadence_steps_per_min", PyVal.real 0),
       ("fall_risk_score", PyVal.nan),
       ("risk_level", PyVal.str "low"),
       ("recommendations",
        PyVal.strList ["Practice walking exercises to improve gait speed"])] ∧
    (analyze_gait_data []).isSome = true ∧
    ((analyze_gait_data []).getD []).lookup "status" = none ∧
    ((analyze_gait_data []).getD []).lookup "error" = none := by
  have hmain : analyze_gait_data [] = some
      [("step_count", PyVal.int 0),
       ("gait_speed_m_per_s", PyVal.real 0),
       ("stride_variability", PyVal.real 0),
       ("balance_score", PyVal.nan),
       ("cadence_steps_per_min", PyVal.real 0),
       ("fall_risk_score", PyVal.nan),
       ("risk_level", PyVal.str "low"),
       ("recommendations",
        PyVal.strList ["Practice walking exercises to improve gait speed"])] := by
    unfold analyze_gait_data gait_cadence gaitDict detect_steps calculate_gait_speed
      calculate_stride_variability assess_balance gait_risk_level
      generate_gait_recommendations pyFloat
    norm_num
  refine ⟨hmain, ?_, ?_, ?_⟩ <;> rw [hmain] <;> rfl

/- ----------------------------------------------------------------------
C8: the reported gait speed is steps * 0.7 / span (0 below 2 steps)
---------------------------------------------------------------------- -/

/-- C8: for a batch whose timestamp span d = last - first is positive, the
gait report exists (no division error) and its gait_speed_m_per_s entry is
exactly n * 0.7 / d when the detected step count n is at least 2 and 0
otherwise; in particular 10 detected steps over a 10 s span give speed
10 * 0.7 / 10 = 0.70 m/s. -/
theorem gait_speed_is_step_formula (data : List GaitSample)
    (h : 0 < (data.map GaitSample.timestamp).getLastD 0 -
      (data.map GaitSample.timestamp).headD 0) :
    ∃ dct, analyze_gait_data data = some dct ∧
      dct.lookup "gait_speed_m_per_s" = some (PyVal.real
        (if 2 ≤ (detect_steps (data.map gaitMag)).length then
          ((detect_steps (data.map gaitMag)).length : ℝ) * 0.7 /
            ((data.map GaitSample.timestamp).getLastD 0 -
             (data.map GaitSample.timestamp).headD 0)
        else 0)) ∧
      ((detect_steps (data.map gaitMag)).length = 10 ∧
        (data.map GaitSample.timestamp).getLastD 0 -
          (data.map GaitSample.timestamp).headD 0 = 10 →
        dct.lookup "gait_speed_m_per_s" = some (PyVal.real 0.7)) := by
  have hcad : ∃ c, gait_cadence (detect_steps (data.map gaitMag))
      (data.map GaitSample.timestamp) = some c := by
    unfold gait_cadence
    by_cases hlen : 1 < (data.map GaitSample.timestamp).length
    · rw [if_pos hlen, if_neg ?hne]
      · exact ⟨_, rfl⟩
      · intro habs
        rcases div_eq_zero_iff.mp habs with h0 | h60
        · linarith
        · norm_num at h60
    · rw [if_neg hlen]
      exact ⟨0, rfl⟩
  obtain ⟨c, hc⟩ := hcad
  have hana : analyze_gait_data data = some (gaitDict data c) := by
    unfold analyze_gait_data
    rw [hc]
    rfl
  have hlook : (gaitDict data c).lookup "gait_speed_m_per_s" =
      some (PyVal.real (calculate_gait_speed (detect_steps (data.map gaitMag))
        (data.map GaitSample.timestamp))) := by
    unfold gaitDict
    dsimp only
    simp [List.lookup]
  have hval : calculate_gait_speed (detect_steps (data.map gaitMag))
      (data.map GaitSample.timestamp) =
      (if 2 ≤ (detect_steps (data.map gaitMag)).length then
        ((detect_steps (data.map gaitMag)).length : ℝ) * 0.7 /
          ((data.map GaitSample.timestamp).getLastD 0 -
           (data.map GaitSample.timestamp).headD 0)
      else 0) := by
    unfold calculate_gait_speed
    dsimp only
    by_cases hn : 2 ≤ (detect_steps (data.map gaitMag)).length
    · rw [if_neg (by omega), if_neg (ne_of_gt h), if_pos hn]
    · rw [if_pos (by omega), if_neg hn]
  refine ⟨gaitDict data c, hana, by rw [hlook, hval], ?_⟩
  rintro ⟨h10, hd10⟩
  rw [hlook, hval, h10, hd10]
  norm_num

/-- Witness for C8: a two-sample batch with timestamps 0 and 10 (span 10,
no interior samples, hence no detected steps and speed 0). -/
theorem gait_speed_is_step_formula_witness :
    ∃ dct, analyze_gait_data
        [{ timestamp := 0, x := 0, y := 0, z := 0 },
         { timestamp := 10, x := 0, y := 0, z := 0 }] = some dct ∧
      dct.lookup "gait_speed_m_per_s" = some (PyVal.real
        (if 2 ≤ (detect_steps (List.map gaitMag
            [{ timestamp := 0, x := 0, y := 0, z := 0 },
             { timestamp := 10, x := 0, y := 0, z := 0 }])).length then
          ((detect_steps (List.map gaitMag
            [{ timestamp := 0, x := 0, y := 0, z := 0 },
             { timestamp := 10, x := 0, y := 0, z := 0 }])).length : ℝ) * 0.7 /
            ((List.map GaitSample.timestamp
              [{ timestamp := 0, x := 0, y := 0, z := 0 },
               { timestamp := 10, x := 0, y := 0, z := 0 }]).getLastD 0 -
             (List.map GaitSample.timestamp
              [{ timestamp := 0, x := 0, y := 0, z := 0 },
               { timestamp := 10, x := 0, y := 0, z := 0 }]).headD 0)
        else 0)) ∧
      ((detect_steps (List.map gaitMag
          [{ timestamp := 0, x := 0, y := 0, z := 0 },
           { timestamp := 10, x := 0, y := 0, z := 0 }])).length = 10 ∧
        (List.map GaitSample.timestamp
          [{ timestamp := 0, x := 0, y := 0, z := 0 },
           { timestamp := 10, x := 0, y := 0, z := 0 }]).getLastD 0 -
          (List.map GaitSample.timestamp
            [{ timestamp := 0, x := 0, y := 0, z := 0 },
             { timestamp := 10, x := 0, y := 0, z := 0 }]).headD 0 = 10 →
        dct.lookup "gait_speed_m_per_s" = some (PyVal.real 0.7)) :=
  gait_speed_is_step_formula
    [{ timestamp := 0, x := 0, y := 0, z := 0 },
     { timestamp := 10, x := 0, y := 0, z := 0 }]
    (by simp)

/- ----------------------------------------------------------------------
C2 helper lemmas: component bounds of the three scoring pipelines
---------------------------------------------------------------------- -/

theorem detect_steps_length_le (m : List ℝ) :
    (detect_steps m).length ≤ m.length - 2 := by
  unfold detect_steps
  dsimp only
  calc (List.filter _ (List.range' 1 (m.length - 2))).length
      ≤ (List.range' 1 (m.length - 2)).length := List.length_filter_le _ _
    _ = m.length - 2 := List.length_range' _ _ _

theorem calculate_stride_variability_nonneg (steps : List ℕ) :
    0 ≤ calculate_stride_variability steps := by
  unfold calculate_stride_variability
  dsimp only
  split_ifs with h1 h2
  · exact le_refl 0
  · exact div_nonneg (listStd_nonneg _) (le_of_lt h2)
  · exact le_refl 0

theorem calculate_gait_speed_nonneg (steps : List ℕ) (timestamps : List ℝ)
    (h : 2 ≤ steps.length → 0 < timestamps.getLastD 0 - timestamps.headD 0) :
    0 ≤ calculate_gait_speed steps timestamps := by
  unfold calculate_gait_speed
  dsimp only
  split_ifs with h1 h2
  · exact le_refl 0
  · exact le_refl 0
  · have hpos := h (by omega)
    positivity

theorem calculate_fall_risk_mem_Icc {s v b : ℝ} (hs : 0 ≤ s) (hv : 0 ≤ v)
    (hb0 : 0 ≤ b) (hb1 : b ≤ 1) :
    0 ≤ calculate_fall_risk s v b ∧ calculate_fall_risk s v b ≤ 1 := by
  unfold calculate_fall_risk
  dsimp only
  have h1 := one_sub_min_one_mem_Icc (div_nonneg hs (by norm_num : (0:ℝ) ≤ 1.2))
  have h2 := min_one_mem_Icc (mul_nonneg hv (by norm_num : (0:ℝ) ≤ 10))
  constructor <;> nlinarith [h1.1, h1.2, h2.1, h2.2]

theorem assess_balance_mem_Icc (acc_x acc_z : List ℝ) (h : acc_x ≠ []) :
    ∃ b, assess_balance acc_x acc_z = some b ∧ 0 ≤ b ∧ b ≤ 1 := by
  unfold assess_balance
  rw [if_neg (by simpa using h)]
  refine ⟨_, rfl, ?_⟩
  have := one_sub_min_one_mem_Icc (div_nonneg
    (add_nonneg (listStd_nonneg acc_x) (listStd_nonneg acc_z))
    (by norm_num : (0:ℝ) ≤ 8))
  exact this

theorem calculate_sleep_quality_mem_Icc {d r e a : ℚ} (hr : 0 ≤ r) (ha : 0 ≤ a)
    (he0 : 0 ≤ e) (he1 : e ≤ 1) :
    0 ≤ calculate_sleep_quality d r e a ∧ calculate_sleep_quality d r e a ≤ 100 := by
  unfold calculate_sleep_quality
  dsimp only
  have h1 := one_sub_min_one_mem_Icc (div_nonneg (abs_nonneg (d - 480))
    (by norm_num : (0:ℚ) ≤ 480))
  have h2 := min_one_mem_Icc (div_nonneg hr (by norm_num : (0:ℚ) ≤ 25))
  have h3 := one_sub_min_one_mem_Icc (div_nonneg ha (by norm_num : (0:ℚ) ≤ 10))
  constructor <;> nlinarith [h1.1, h1.2, h2.1, h2.2, h3.1, h3.2]

theorem analyze_pauses_frac_nonneg (pauses : List (ℚ × ℚ)) (dur : ℚ)
    (h : ∀ p ∈ pauses, p.1 ≤ p.2) :
    0 ≤ (analyze_pauses pauses dur).pauseFrac := by
  cases pauses with
  | nil =>
    unfold analyze_pauses
    exact le_refl 0
  | cons p ps =>
    unfold analyze_pauses
    dsimp only
    split_ifs with hd
    · refine div_nonneg (List.sum_nonneg ?_) (le_of_lt hd)
      intro x hx
      obtain ⟨q, hq, rfl⟩ := List.mem_map.mp hx
      have := h q hq
      linarith
    · exact le_refl 0

theorem word_finding_score_mem_Icc (t : String) (ws : List String) :
    0 ≤ (detect_word_finding_difficulty t ws).difficulty_score ∧
    (detect_word_finding_difficulty t ws).difficulty_score ≤ 1 := by
  unfold detect_word_finding_difficulty
  dsimp only
  refine min_one_mem_Icc ?_
  split_ifs with h
  · positivity
  · exact le_refl 0

theorem calculate_semantic_coherence_mem_Icc (t : String) :
    0 ≤ calculate_semantic_coherence t ∧ calculate_semantic_coherence t ≤ 1 := by
  unfold calculate_semantic_coherence
  dsimp only
  split_ifs with h
  · norm_num
  · have hlen : 0 < ((speechSentences t).length : ℚ) := by
      have : 2 ≤ (speechSentences t).length := by omega
      have : 0 < (speechSentences t).length := by omega
      exact_mod_cast this
    have hcomp0 : 0 ≤ ((speechSentences t).countP
        (fun s => decide (4 ≤ (pyWords s).length)) : ℚ) / (speechSentences t).length :=
      div_nonneg (Nat.cast_nonneg _) (le_of_lt hlen)
    have hcomp1 : ((speechSentences t).countP
        (fun s => decide (4 ≤ (pyWords s).length)) : ℚ) / (speechSentences t).length ≤ 1 := by
      rw [div_le_one hlen]
      exact_mod_cast List.countP_le_length _
    have hconn := min_one_mem_Icc (div_nonneg
      (Nat.cast_nonneg ((speechSentences t).map fun s =>
        speechConnectors.countP fun c => containsSubstr s.toLower c).sum)
      (le_of_lt hlen))
    constructor <;> nlinarith [hconn.1, hconn.2]

theorem analyze_vocabulary_ttr_mem_Icc (ws : List String) :
    0 ≤ (analyze_vocabulary ws).ttr ∧ (analyze_vocabulary ws).ttr ≤ 1 := by
  cases ws with
  | nil =>
    unfold analyze_vocabulary
    norm_num
  | cons w0 rest =>
    unfold analyze_vocabulary
    dsimp only
    split_ifs with h
    · have hpos : 0 < (((w0 :: rest).filter fun w => w ∉ filler_words).length : ℚ) := by
        have : ((w0 :: rest).filter fun w => w ∉ filler_words) ≠ [] := by simpa using h
        have : 0 < ((w0 :: rest).filter fun w => w ∉ filler_words).length :=
          List.length_pos.mpr this
        exact_mod_cast this
      constructor
      · exact div_nonneg (Nat.cast_nonneg _) (le_of_lt hpos)
      · rw [div_le_one hpos]
        exact_mod_cast (List.dedup_sublist _).length_le
    · norm_num

theorem detect_repetitions_rate_nonneg (ws : List String) :
    0 ≤ (detect_repetitions ws).repetition_rate := by
  cases ws with
  | nil =>
    unfold detect_repetitions
    exact le_refl 0
  | cons w0 rest =>
    unfold detect_repetitions
    dsimp only
    positivity

theorem count_filler_words_frac_nonneg (ws : List String) (n : ℕ) :
    0 ≤ (count_filler_words ws n).fillerFrac := by
  unfold count_filler_words
  dsimp only
  split_ifs with h
  · positivity
  · exact le_refl 0

theorem calculate_cognitive_score_mem_Icc {r p w c v rr f : ℚ}
    (hr : 0 ≤ r) (hp : 0 ≤ p) (hw : 0 ≤ w) (hc0 : 0 ≤ c) (hc1 : c ≤ 1)
    (hv0 : 0 ≤ v) (hv1 : v ≤ 1) (hrr : 0 ≤ rr) (hf : 0 ≤ f) :
    0 ≤ calculate_cognitive_score r p w c v rr f ∧
    calculate_cognitive_score r p w c v rr f ≤ 100 := by
  unfold calculate_cognitive_score
  dsimp only
  have h1 := one_sub_min_one_mem_Icc (div_nonneg hr (by norm_num : (0:ℚ) ≤ 200))
  have h2 := one_sub_min_one_mem_Icc (mul_nonneg hp (by norm_num : (0:ℚ) ≤ 5))
  have h3 := one_sub_min_one_mem_Icc (mul_nonneg hw (by norm_num : (0:ℚ) ≤ 3))
  have h4 := one_sub_min_one_mem_Icc (mul_nonneg hrr (by norm_num : (0:ℚ) ≤ 10))
  have h5 := one_sub_min_one_mem_Icc (mul_nonneg hf (by norm_num : (0:ℚ) ≤ 5))
  constructor <;>
    nlinarith [h1.1, h1.2, h2.1, h2.2, h3.1, h3.2, h4.1, h4.2, h5.1, h5.2]

/- ----------------------------------------------------------------------
C2: the three analyzers' scores stay within their documented ranges
---------------------------------------------------------------------- -/

theorem gait_fall_risk_bounded (data : List GaitSample) (hne : data ≠ [])
    (hspan : 1 < data.length →
      (data.map GaitSample.timestamp).headD 0 <
        (data.map GaitSample.timestamp).getLastD 0) :
    ∃ dct r, analyze_gait_data data = some dct ∧
      dct.lookup "fall_risk_score" = some (PyVal.real r) ∧ 0 ≤ r ∧ r ≤ 1 := by
  have hlenmap : (data.map GaitSample.timestamp).length = data.length :=
    List.length_map _ _
  have hspan' : 1 < data.length →
      0 < (data.map GaitSample.timestamp).getLastD 0 -
        (data.map GaitSample.timestamp).headD 0 := by
    intro hl
    have := hspan hl
    linarith
  have hcad : ∃ c, gait_cadence (detect_steps (data.map gaitMag))
      (data.map GaitSample.timestamp) = some c := by
    unfold gait_cadence
    by_cases hlen : 1 < (data.map GaitSample.timestamp).length
    · rw [if_pos hlen, if_neg ?hne2]
      · exact ⟨_, rfl⟩
      · intro habs
        have hpos := hspan' (by omega)
        rcases div_eq_zero_iff.mp habs with h0 | h60
        · linarith
        · norm_num at h60
    · rw [if_neg hlen]
      exact ⟨0, rfl⟩
  obtain ⟨c, hc⟩ := hcad
  have hana : analyze_gait_data data = some (gaitDict data c) := by
    unfold analyze_gait_data
    rw [hc]
    rfl
  obtain ⟨b, hb, hb0, hb1⟩ := assess_balance_mem_Icc (data.map GaitSample.x)
    (data.map GaitSample.z) (by simpa using hne)
  have hs : 0 ≤ calculate_gait_speed (detect_steps (data.map gaitMag))
      (data.map GaitSample.timestamp) := by
    refine calculate_gait_speed_nonneg _ _ ?_
    intro h2
    have hle := detect_steps_length_le (data.map gaitMag)
    rw [List.length_map] at hle
    exact hspan' (by omega)
  have hv := calculate_stride_variability_nonneg (detect_steps (data.map gaitMag))
  have hrisk := calculate_fall_risk_mem_Icc hs hv hb0 hb1
  refine ⟨gaitDict data c, _, hana, ?_, hrisk.1, hrisk.2⟩
  unfold gaitDict
  dsimp only
  rw [hb]
  simp [List.lookup, pyFloat]

theorem sleep_quality_score_bounded (sessions : List SleepSession)
    (hne : sessions ≠ [])
    (hvalid : ∀ s ∈ sessions, 0 ≤ s.rem_min ∧ 0 ≤ s.awakenings ∧
      0 ≤ s.efficiency ∧ s.efficiency ≤ 1) :
    ∃ rep, analyze_sleep_data sessions = SleepResult.report rep ∧
      0 ≤ rep.sleep_quality_score ∧ rep.sleep_quality_score ≤ 100 := by
  cases sessions with
  | nil => exact absurd rfl hne
  | cons s0 rest =>
    have hrem : 0 ≤ listMeanQ ((s0 :: rest).map SleepSession.rem_min) := by
      refine listMeanQ_nonneg ?_
      intro x hx
      obtain ⟨s, hs, rfl⟩ := List.mem_map.mp hx
      exact (hvalid s hs).1
    have hawak : 0 ≤ listMeanQ ((s0 :: rest).map SleepSession.awakenings) := by
      refine listMeanQ_nonneg ?_
      intro x hx
      obtain ⟨s, hs, rfl⟩ := List.mem_map.mp hx
      exact (hvalid s hs).2.1
    have heff0 : 0 ≤ listMeanQ ((s0 :: rest).map SleepSession.efficiency) := by
      refine listMeanQ_nonneg ?_
      intro x hx
      obtain ⟨s, hs, rfl⟩ := List.mem_map.mp hx
      exact (hvalid s hs).2.2.1
    have heff1 : listMeanQ ((s0 :: rest).map SleepSession.efficiency) ≤ 1 := by
      refine listMeanQ_le_one (by simp) ?_
      intro x hx
      obtain ⟨s, hs, rfl⟩ := List.mem_map.mp hx
      exact (hvalid s hs).2.2.2
    have hpct : 0 ≤ (if listMeanQ ((s0 :: rest).map SleepSession.total_sleep_min) > 0
        then listMeanQ ((s0 :: rest).map SleepSession.rem_min) /
          listMeanQ ((s0 :: rest).map SleepSession.total_sleep_min) * 100
        else 0) := by
      split_ifs with h
      · have := div_nonneg hrem (le_of_lt h)
        linarith
      · exact le_refl 0
    have hq := @calculate_sleep_quality_mem_Icc
      (listMeanQ ((s0 :: rest).map SleepSession.total_sleep_min)) _ _ _
      hpct hawak heff0 heff1
    exact ⟨_, rfl, hq.1, hq.2⟩

theorem speech_cognitive_score_bounded (transcript : String)
    (audio_duration : ℚ) (pauses : List (ℚ × ℚ)) (hd : 0 < audio_duration)
    (hp : ∀ p ∈ pauses, p.1 ≤ p.2) :
    0 ≤ (analyze_speech_recording transcript audio_duration pauses).cognitive_score ∧
    (analyze_speech_recording transcript audio_duration pauses).cognitive_score
      ≤ 100 := by
  have hr : 0 ≤ (if audio_duration > 0 then
      ((pyWords transcript.toLower).length : ℚ) / audio_duration * 60 else 0) := by
    rw [if_pos hd]
    exact mul_nonneg (div_nonneg (Nat.cast_nonneg _) (le_of_lt hd)) (by norm_num)
  have hfrac := analyze_pauses_frac_nonneg pauses audio_duration hp
  have hw := word_finding_score_mem_Icc transcript (pyWords transcript.toLower)
  have hc := calculate_semantic_coherence_mem_Icc transcript
  have hv := analyze_vocabulary_ttr_mem_Icc (pyWords transcript.toLower)
  have hrr := detect_repetitions_rate_nonneg (pyWords transcript.toLower)
  have hf := count_filler_words_frac_nonneg (pyWords transcript.toLower)
    (pyWords transcript.toLower).length
  have hcog := calculate_cognitive_score_mem_Icc hr hfrac hw.1 hc.1 hc.2
    hv.1 hv.2 hrr hf
  unfold analyze_speech_recording
  dsimp only
  exact hcog

/-- C2: every analyzer's score lies in its documented range on valid input.
Gait: for every nonempty batch whose timestamp span is positive whenever it
has more than one sample (the data-model invariant of ordered, non-degenerate
timestamps), the report exists and its fall_risk_score entry is a real in
[0, 1].  Sleep: for every nonempty session list with nonnegative REM minutes
and awakenings and efficiency values in [0, 1], the full report is returned
and its sleep_quality_score lies in [0, 100].  Speech: for every transcript,
positive audio duration and well-formed pause intervals, the cognitive_score
lies in [0, 100]. -/
theorem analyzer_scores_within_documented_ranges :
    (∀ (data : List GaitSample), data ≠ [] →
      (1 < data.length →
        (data.map GaitSample.timestamp).headD 0 <
          (data.map GaitSample.timestamp).getLastD 0) →
      ∃ dct r, analyze_gait_data data = some dct ∧
        dct.lookup "fall_risk_score" = some (PyVal.real r) ∧ 0 ≤ r ∧ r ≤ 1) ∧
    (∀ (sessions : List SleepSession), sessions ≠ [] →
      (∀ s ∈ sessions, 0 ≤ s.rem_min ∧ 0 ≤ s.awakenings ∧
        0 ≤ s.efficiency ∧ s.efficiency ≤ 1) →
      ∃ rep, analyze_sleep_data sessions = SleepResult.report rep ∧
        0 ≤ rep.sleep_quality_score ∧ rep.sleep_quality_score ≤ 100) ∧
    (∀ (transcript : String) (audio_duration : ℚ) (pauses : List (ℚ × ℚ)),
      0 < audio_duration → (∀ p ∈ pauses, p.1 ≤ p.2) →
      0 ≤ (analyze_speech_recording transcript audio_duration pauses).cognitive_score ∧
      (analyze_speech_recording transcript audio_duration pauses).cognitive_score
        ≤ 100) :=
  ⟨gait_fall_risk_bounded, sleep_quality_score_bounded, speech_cognitive_score_bounded⟩

/-- Witness for C2 at concrete inputs: a one-sample gait batch, a single
healthy sleep session, and a two-word transcript over 60 seconds. -/
theorem analyzer_scores_within_documented_ranges_witness :
    (∃ dct r, analyze_gait_data [{ timestamp := 0, x := 0, y := 0, z := 9.81 }]
        = some dct ∧
      dct.lookup "fall_risk_score" = some (PyVal.real r) ∧ 0 ≤ r ∧ r ≤ 1) ∧
    (∃ rep, analyze_sleep_data
        [{ date := "2024-01-01", total_sleep_min := 480, rem_min := 96,
           deep_min := 100, awakenings := 2, efficiency := 9/10 }]
        = SleepResult.report rep ∧
      0 ≤ rep.sleep_quality_score ∧ rep.sleep_quality_score ≤ 100) ∧
    (0 ≤ (analyze_speech_recording "hello world" 60 []).cognitive_score ∧
      (analyze_speech_recording "hello world" 60 []).cognitive_score ≤ 100) := by
  refine ⟨analyzer_scores_within_documented_ranges.1
      [{ timestamp := 0, x := 0, y := 0, z := 9.81 }] (by simp) ?_,
    analyzer_scores_within_documented_ranges.2.1
      [{ date := "2024-01-01", total_sleep_min := 480, rem_min := 96,
         deep_min := 100, awakenings := 2, efficiency := 9/10 }] (by simp) ?_,
    analyzer_scores_within_documented_ranges.2.2 "hello world" 60 []
      (by norm_num) (by simp)⟩
  · intro h
    simp at h
  · intro s hs
    simp only [List.mem_singleton] at hs
    subst hs
    norm_num

end NeuroSmriti
